import Mathlib

/-!
Verification of the `telegram` package (bot.go and its type declarations).

The development shallowly embeds the polling core of `Bot.poll` / `Bot.Listen`,
the constructor `NewBot`, and the response-handling tail of `SendPhoto`.

Modelling conventions:
* Go `int64` values (update identifiers, `time.Duration` in nanoseconds) are
  modelled as `Int`; Go integer division truncates toward zero, modelled by
  `Int.tdiv`.
* A nil Go channel is `none`; a non-nil channel is `some trace`, where the
  trace is the list of values sent on it so far, in send order.
* The transport calls (`getUpdates`, `getMe`, `sendCommand`/`sendFile` plus
  JSON decoding) are external request/response collaborators: they are
  passed in as oracles giving the result of each call.
* A Go runtime panic (out-of-range slice index) is modelled as `none` in an
  `Option`-valued result.
-/

namespace Telegram

/-- Modelled from the spec: the `File` declaration (file.go) is not among the
sources; only the fields the sources use are modelled: the exported `FileID`
and `FileSize` carried by the server, and the unexported local `filename`
that `SendPhoto` saves and restores across the `File` overwrite. -/
structure File where
  FileID : String
  FileSize : Int
  filename : String
deriving DecidableEq

/-- Thumbnail object represents an image/sticker of a particular size
(from the type declarations source). -/
structure Thumbnail where
  File : File
  Width : Int
  Height : Int
deriving DecidableEq

/-- Modelled from the spec: the `Message` declaration (message.go) is not
among the sources. Only the fields the sources use are modelled: the message
`ID` and the `Photo` thumbnail list that `SendPhoto` reads from the decoded
response. -/
structure Message where
  ID : Int
  Photo : List Thumbnail
deriving DecidableEq

/-- Modelled from the spec: the `Query` declaration (inline query) is not
among the sources; the poll loop treats it as an opaque payload, so only an
identifier field is modelled. -/
structure Query where
  ID : String
deriving DecidableEq

/-- Modelled from the spec: the `Callback` declaration is not among the
sources; the poll loop treats it as an opaque payload, and
`AnswerCallbackQuery` reads its `ID`. -/
structure Callback where
  ID : String
deriving DecidableEq

/-- User object represents a Telegram user or bot
(from the type declarations source). -/
structure User where
  ID : Int
  FirstName : String
  LastName : String
  Username : String
deriving DecidableEq

/-- Update object represents an incoming update (the event envelope):
three nullable variant pointers plus the update identifier. -/
structure Update where
  ID : Int
  Payload : Option Message
  Query : Option Query
  Callback : Option Callback
deriving DecidableEq

/-- Photo object represents a photo with caption: an embedded `File`
plus `Data` and `Caption`. -/
structure Photo where
  File : File
  Data : String
  Caption : String
deriving DecidableEq

/-- Bot represents a separate Telegram bot instance; the poll loop reads
`Token` and `MultiWait`, `NewBot` fills `Token` and `Identity`. -/
structure Bot where
  Token : String
  Identity : User
deriving DecidableEq

/-- `startsWithList s pat` holds when `pat` is a leading segment of `s`
(character-by-character comparison). -/
def startsWithList : List Char → List Char → Bool
  | _, [] => true
  | [], _ :: _ => false
  | a :: as, b :: bs => a == b && startsWithList as bs

/-- `hasSubList pat s` holds when `pat` occurs contiguously somewhere in
`s`. -/
def hasSubList (pat : List Char) : List Char → Bool
  | [] => startsWithList [] pat
  | c :: rest => startsWithList (c :: rest) pat || hasSubList pat rest

/-- `containsSubstr s pat` models Go `strings.Index(s, pat) > -1`:
`pat` occurs as a contiguous substring of `s`. -/
def containsSubstr (s pat : String) : Bool :=
  hasSubList pat.data s.data

/-- The distinguished poller-conflict error text matched by substring in
`poll`. -/
def conflictText : String :=
  "terminated by other long poll or webhook"

/-- Go `time.Second` in nanoseconds. -/
def nanosPerSecond : Int := 1000000000

/-- `int64(timeout / time.Second)`: the long-poll timeout, a duration in
nanoseconds, converted to whole seconds by truncating division. -/
def timeoutSeconds (timeout : Int) : Int :=
  timeout.tdiv nanosPerSecond

/-- The state owned by one execution of `poll`: the cursor `latestUpdate`
(Go `var latestUpdate int64`, zero-initialised) and the three caller-supplied
sinks. A `none` sink is a nil channel; a `some trace` sink records every
value sent on the channel, in order. -/
structure PollState where
  latestUpdate : Int
  messages : Option (List Message)
  queries : Option (List Query)
  callbacks : Option (List Callback)
deriving DecidableEq

/-- The poll state at loop entry: cursor 0 and empty traces on the non-nil
sinks chosen by the caller. -/
def initPollState (hasMessages hasQueries hasCallbacks : Bool) : PollState :=
  { latestUpdate := 0
    messages := if hasMessages then some [] else none
    queries := if hasQueries then some [] else none
    callbacks := if hasCallbacks then some [] else none }

/-- The body of `for _, update := range updates` in `poll`: check the
variants in source order (`Payload`, then `Query`, then `Callback`); on the
first populated variant, if its sink channel is nil, `continue` — which
skips the trailing `latestUpdate = update.ID` assignment — otherwise send on
the sink and fall through to the cursor assignment. An update with no
populated variant falls through every branch and still reaches the cursor
assignment. -/
def processUpdate (s : PollState) (u : Update) : PollState :=
  match u.Payload with
  | some m =>
    match s.messages with
    | none => s
    | some tr => { s with messages := some (tr ++ [m]), latestUpdate := u.ID }
  | none =>
    match u.Query with
    | some q =>
      match s.queries with
      | none => s
      | some tr => { s with queries := some (tr ++ [q]), latestUpdate := u.ID }
    | none =>
      match u.Callback with
      | some c =>
        match s.callbacks with
        | none => s
        | some tr => { s with callbacks := some (tr ++ [c]), latestUpdate := u.ID }
      | none => { s with latestUpdate := u.ID }

/-- Processing one fetched batch: the inner `for` loop of `poll`. -/
def processBatch (s : PollState) (us : List Update) : PollState :=
  us.foldl processUpdate s

/-- The messages the classifier routes to the message sink out of one batch,
in batch order: every update whose `Payload` variant is populated (checked
first, so it wins over the other variants). -/
def routedMessages : List Update → List Message
  | [] => []
  | u :: us =>
    match u.Payload with
    | some m => m :: routedMessages us
    | none => routedMessages us

/-- The inline queries the classifier routes to the query sink out of one
batch, in batch order: updates with `Payload` empty and `Query` populated. -/
def routedQueries : List Update → List Query
  | [] => []
  | u :: us =>
    match u.Payload with
    | some _ => routedQueries us
    | none =>
      match u.Query with
      | some q => q :: routedQueries us
      | none => routedQueries us

/-- The callback presses the classifier routes to the callback sink out of
one batch, in batch order: updates with `Payload` and `Query` empty and
`Callback` populated. -/
def routedCallbacks : List Update → List Callback
  | [] => []
  | u :: us =>
    match u.Payload with
    | some _ => routedCallbacks us
    | none =>
      match u.Query with
      | some _ => routedCallbacks us
      | none =>
        match u.Callback with
        | some c => c :: routedCallbacks us
        | none => routedCallbacks us

/-- The observable outcome of one non-cancelled iteration of `poll`:
the state after the iteration, the `(offset, timeoutSeconds)` pair the
iteration passed to `getUpdates`, and the sleeps it performed. -/
structure StepOut where
  state : PollState
  req : Int × Int
  sleeps : List Int
deriving DecidableEq

/-- One non-cancelled iteration of the `poll` loop body, given the result
`getUpdates` returned for it. The request is `(latestUpdate+1,
int64(timeout/time.Second))`. On error the iteration logs, sleeps for
`MultiWait` exactly when the error text contains the poller-conflict
substring, and `continue`s with the state untouched; on success it runs the
batch loop. `mw` is `b.MultiWait` and `tns` the timeout, both in
nanoseconds. -/
def pollStep (mw tns : Int) (result : Except String (List Update))
    (s : PollState) : StepOut :=
  let req := (s.latestUpdate + 1, timeoutSeconds tns)
  match result with
  | .error e =>
    { state := s
      req := req
      sleeps := if containsSubstr e conflictText then [mw] else [] }
  | .ok updates =>
    { state := processBatch s updates, req := req, sleeps := [] }

/-- The trace of a (fuel-bounded) run of the `poll` loop: the fetch requests
issued in order, the sleeps performed in order, and whether the loop
observed the stop signal and returned (`stopped = false` means the loop was
still running when the fuel ran out). -/
structure PollTrace where
  fetches : List (Int × Int)
  sleeps : List Int
  stopped : Bool
deriving DecidableEq

/-- `fuel` iterations of the `poll` loop starting at iteration index `i` in
state `s`. Each iteration first polls the stop channel (the non-blocking
`select` with a `default` branch): `stop i = true` means a value was ready
at iteration `i`, upon which the loop returns without fetching. Otherwise
the iteration fetches; `script i` is the result `getUpdates` returned for
iteration `i`. -/
def pollRun (mw tns : Int) (script : Nat → Except String (List Update))
    (stop : Nat → Bool) : Nat → Nat → PollState → PollState × PollTrace
  | 0, _, s => (s, { fetches := [], sleeps := [], stopped := false })
  | n + 1, i, s =>
    if stop i then
      (s, { fetches := [], sleeps := [], stopped := true })
    else
      let o := pollStep mw tns (script i) s
      let r := pollRun mw tns script stop n (i + 1) o.state
      (r.1,
        { fetches := o.req :: r.2.fetches
          sleeps := o.sleeps ++ r.2.sleeps
          stopped := r.2.stopped })

/-- `Listen`: runs `poll` and, via `defer wg.Done()`, fires the wait group
when (and only when) `poll` has returned. The boolean records whether
`wg.Done` has fired within the observed fuel. -/
def listenRun (mw tns : Int) (script : Nat → Except String (List Update))
    (stop : Nat → Bool) (fuel : Nat) (s : PollState) :
    (PollState × PollTrace) × Bool :=
  let r := pollRun mw tns script stop fuel 0 s
  (r, r.2.stopped)

/-- `NewBot`: calls the one-time identity request `getMe token` and fails
construction on its error; on success it returns a bot holding the supplied
token and the returned identity. `gm` is the oracle for the external
`getMe` call. -/
def NewBot (gm : String → Except String User) (token : String) :
    Except String Bot :=
  match gm token with
  | .error e => .error e
  | .ok user => .ok { Token := token, Identity := user }

/-- The decoded `sendPhoto` response body: `Ok`, `Result` and
`Description`, as unmarshalled in `SendPhoto`. -/
structure PhotoResponse where
  Ok : Bool
  Result : Message
  Description : String
deriving DecidableEq

/-- The response-handling tail of `SendPhoto`, given the combined result of
the transport call and JSON decode (both external): a transport or decode
error is returned as-is; a response with `Ok` false becomes a
`telebot:`-prefixed error; otherwise the photo's `File` is overwritten with
the `File` of `(*thumbnails)[len(*thumbnails)-1]` while the saved local
`filename` is written back. The outer `Option` is `none` exactly when the
index `len-1` is out of range, i.e. the Go code panics. -/
def sendPhoto (photo : Photo) (response : Except String PhotoResponse) :
    Option (Except String Photo) :=
  match response with
  | .error e => some (.error e)
  | .ok r =>
    if !r.Ok then
      some (.error ("telebot: " ++ r.Description))
    else
      let thumbnails := r.Result.Photo
      match thumbnails.getLast? with
      | none => none
      | some t =>
        some (.ok { photo with
          File := { t.File with filename := photo.File.filename } })

/-! ### Helper lemmas -/

/-- The fetch request of an iteration is computed from the state before the
result is known: offset `latestUpdate + 1` and the timeout in whole
seconds. -/
lemma pollStep_req (mw tns : Int) (result : Except String (List Update))
    (s : PollState) :
    (pollStep mw tns result s).req = (s.latestUpdate + 1, timeoutSeconds tns) := by
  cases result <;> rfl

/-- An error iteration leaves the whole poll state (cursor and all sink
traces) untouched and sleeps exactly when the conflict text occurs. -/
lemma pollStep_error (mw tns : Int) (e : String) (s : PollState) :
    pollStep mw tns (.error e) s =
      { state := s
        req := (s.latestUpdate + 1, timeoutSeconds tns)
        sleeps := if containsSubstr e conflictText then [mw] else [] } := rfl

/-- Unfolding one non-cancelled iteration of the loop. -/
lemma pollRun_succ_of_not_stop (mw tns : Int)
    (script : Nat → Except String (List Update)) (stop : Nat → Bool)
    (n i : Nat) (s : PollState) (h : stop i = false) :
    pollRun mw tns script stop (n + 1) i s =
      ((pollRun mw tns script stop n (i + 1) (pollStep mw tns (script i) s).state).1,
        { fetches := (pollStep mw tns (script i) s).req ::
            (pollRun mw tns script stop n (i + 1) (pollStep mw tns (script i) s).state).2.fetches
          sleeps := (pollStep mw tns (script i) s).sleeps ++
            (pollRun mw tns script stop n (i + 1) (pollStep mw tns (script i) s).state).2.sleeps
          stopped :=
            (pollRun mw tns script stop n (i + 1) (pollStep mw tns (script i) s).state).2.stopped }) := by
  simp [pollRun, h]

/-! ### Claims -/

/-- C1: the claimed behaviour fails on the code. In the spec scenario —
cursor 0, only the Message sink non-nil, first fetch
`[(1, Message), (2, CallbackPress), (3, InlineQuery)]` — the Message sink
does receive exactly the one message of event 1 and no other sink receives
anything, but the cursor ends at 1, not 3: the `continue` taken when a
variant's sink channel is nil skips the `latestUpdate = update.ID`
assignment, so dropped events do not advance the cursor and will be fetched
again. -/
theorem c1_nil_sink_keeps_cursor :
    (processBatch (initPollState true false false)
        [ { ID := 1, Payload := some { ID := 1, Photo := [] },
            Query := none, Callback := none },
          { ID := 2, Payload := none, Query := none,
            Callback := some { ID := "cb2" } },
          { ID := 3, Payload := none, Query := some { ID := "q3" },
            Callback := none } ]) =
      { latestUpdate := 1
        messages := some [{ ID := 1, Photo := [] }]
        queries := none
        callbacks := none } := by
  decide

/-- C2: the claimed equality with the identifier of the last event processed
fails on the code. With the trusted server contract satisfied (batch
`[(1, Message), (2, CallbackPress)]`, ascending, all identifiers at least
the requested minimum 1) and a nil callback sink, the batch's last event has
identifier 2 but the cursor ends at 1, because the nil-sink `continue`
skips the cursor assignment. -/
theorem c2_cursor_below_last_processed :
    (processBatch (initPollState true true false)
        [ { ID := 1, Payload := some { ID := 11, Photo := [] },
            Query := none, Callback := none },
          { ID := 2, Payload := none, Query := none,
            Callback := some { ID := "cb" } } ]).latestUpdate = 1 ∧
    ([ { ID := 1, Payload := some { ID := 11, Photo := [] },
         Query := none, Callback := none },
       { ID := 2, Payload := none, Query := none,
         Callback := some { ID := "cb" } } ] : List Update).getLast?.map
      Update.ID = some 2 := by
  decide

/-- C3: every iteration invokes `getUpdates` with offset `latestUpdate + 1`
and the configured timeout truncated to whole seconds, whatever the result
is; from the initial state (cursor 0) the first request therefore asks for
minimum identifier 1. -/
theorem c3_fetch_request_args (mw tns : Int)
    (result : Except String (List Update)) (s : PollState)
    (script : Nat → Except String (List Update)) (stop : Nat → Bool)
    (n : Nat) (hm hq hc : Bool) (h0 : stop 0 = false) :
    (pollStep mw tns result s).req = (s.latestUpdate + 1, timeoutSeconds tns) ∧
    (pollRun mw tns script stop (n + 1) 0 (initPollState hm hq hc)).2.fetches.head? =
      some (1, timeoutSeconds tns) := by
  refine ⟨pollStep_req mw tns result s, ?_⟩
  rw [pollRun_succ_of_not_stop mw tns script stop n 0 (initPollState hm hq hc) h0]
  simp [pollStep_req, initPollState]

/-- C3 witness. -/
theorem c3_fetch_request_args_witness :
    ((fun _ : Nat => false) 0 = false) ∧
    ((pollStep 5 3000000000 (Except.ok []) (initPollState true true true)).req =
        ((initPollState true true true).latestUpdate + 1, timeoutSeconds 3000000000) ∧
      (pollRun 5 3000000000 (fun _ => Except.ok []) (fun _ => false) 1 0
          (initPollState true true true)).2.fetches.head? =
        some (1, timeoutSeconds 3000000000)) :=
  ⟨rfl, c3_fetch_request_args 5 3000000000 (Except.ok []) (initPollState true true true)
    (fun _ => Except.ok []) (fun _ => false) 0 true true true rfl⟩

/-- C4: an error iteration leaves the cursor and all sink traces untouched
(no event is dispatched), does not terminate the loop — the run continues as
the same run one iteration later from the unchanged state — and therefore
the next fetch requests exactly the same minimum identifier and timeout as
the failed one. -/
theorem c4_error_iteration (mw tns : Int)
    (script : Nat → Except String (List Update)) (stop : Nat → Bool)
    (s : PollState) (e : String) (i n : Nat)
    (hscript : script i = .error e) (h0 : stop i = false) :
    (pollStep mw tns (.error e) s).state = s ∧
    pollRun mw tns script stop (n + 2) i s =
      ((pollRun mw tns script stop (n + 1) (i + 1) s).1,
        { fetches := (s.latestUpdate + 1, timeoutSeconds tns) ::
            (pollRun mw tns script stop (n + 1) (i + 1) s).2.fetches
          sleeps := (if containsSubstr e conflictText then [mw] else []) ++
            (pollRun mw tns script stop (n + 1) (i + 1) s).2.sleeps
          stopped := (pollRun mw tns script stop (n + 1) (i + 1) s).2.stopped }) ∧
    (stop (i + 1) = false →
      (pollRun mw tns script stop (n + 2) i s).2.fetches.take 2 =
        [(s.latestUpdate + 1, timeoutSeconds tns),
         (s.latestUpdate + 1, timeoutSeconds tns)]) := by
  have hdec : pollRun mw tns script stop (n + 2) i s =
      ((pollRun mw tns script stop (n + 1) (i + 1) s).1,
        { fetches := (s.latestUpdate + 1, timeoutSeconds tns) ::
            (pollRun mw tns script stop (n + 1) (i + 1) s).2.fetches
          sleeps := (if containsSubstr e conflictText then [mw] else []) ++
            (pollRun mw tns script stop (n + 1) (i + 1) s).2.sleeps
          stopped := (pollRun mw tns script stop (n + 1) (i + 1) s).2.stopped }) := by
    rw [pollRun_succ_of_not_stop mw tns script stop (n + 1) i s h0, hscript,
      pollStep_error]
  refine ⟨rfl, hdec, fun h1 => ?_⟩
  rw [hdec]
  rw [pollRun_succ_of_not_stop mw tns script stop n (i + 1) s h1]
  simp [pollStep_req]

/-- C4 witness. -/
theorem c4_error_iteration_witness :
    ((fun j : Nat => if j = 0 then Except.error "boom"
        else Except.ok ([] : List Update)) 0 = Except.error "boom") ∧
    ((fun _ : Nat => false) 0 = false) ∧
    ((pollStep 5 1000000000 (Except.error "boom") (initPollState true true true)).state =
        initPollState true true true ∧
      pollRun 5 1000000000
          (fun j => if j = 0 then Except.error "boom" else Except.ok [])
          (fun _ => false) 2 0 (initPollState true true true) =
        ((pollRun 5 1000000000
            (fun j => if j = 0 then Except.error "boom" else Except.ok [])
            (fun _ => false) 1 1 (initPollState true true true)).1,
          { fetches := ((initPollState true true true).latestUpdate + 1,
                timeoutSeconds 1000000000) ::
              (pollRun 5 1000000000
                (fun j => if j = 0 then Except.error "boom" else Except.ok [])
                (fun _ => false) 1 1 (initPollState true true true)).2.fetches
            sleeps := (if containsSubstr "boom" conflictText then [5] else []) ++
              (pollRun 5 1000000000
                (fun j => if j = 0 then Except.error "boom" else Except.ok [])
                (fun _ => false) 1 1 (initPollState true true true)).2.sleeps
            stopped := (pollRun 5 1000000000
              (fun j => if j = 0 then Except.error "boom" else Except.ok [])
              (fun _ => false) 1 1 (initPollState true true true)).2.stopped }) ∧
      ((fun _ : Nat => false) (0 + 1) = false →
        (pollRun 5 1000000000
            (fun j => if j = 0 then Except.error "boom" else Except.ok [])
            (fun _ => false) 2 0 (initPollState true true true)).2.fetches.take 2 =
          [((initPollState true true true).latestUpdate + 1, timeoutSeconds 1000000000),
           ((initPollState true true true).latestUpdate + 1,
             timeoutSeconds 1000000000)])) :=
  ⟨rfl, rfl,
    c4_error_iteration 5 1000000000
      (fun j => if j = 0 then Except.error "boom" else Except.ok [])
      (fun _ => false) (initPollState true true true) "boom" 0 0 rfl rfl⟩

/-- C5: on an error iteration the loop sleeps for the configured `MultiWait`
cooldown exactly when the error text contains the substring
"terminated by other long poll or webhook" (otherwise it sleeps not at
all); and in a run whose first fetch returns a conflict error and whose
second succeeds, the loop sleeps exactly once, both fetches request the
same minimum identifier, and the successful batch is processed from the
unchanged state (no events lost). -/
theorem c5_conflict_cooldown (mw tns : Int)
    (script : Nat → Except String (List Update)) (stop : Nat → Bool)
    (s : PollState) (e : String) (us : List Update)
    (h0 : stop 0 = false) (h1 : stop 1 = false)
    (hsc0 : script 0 = .error e) (hsc1 : script 1 = .ok us) :
    (pollStep mw tns (.error e) s).sleeps =
      (if containsSubstr e conflictText then [mw] else []) ∧
    (containsSubstr e conflictText = true →
      (pollRun mw tns script stop 2 0 s).2.sleeps = [mw] ∧
      (pollRun mw tns script stop 2 0 s).2.fetches =
        [(s.latestUpdate + 1, timeoutSeconds tns),
         (s.latestUpdate + 1, timeoutSeconds tns)] ∧
      (pollRun mw tns script stop 2 0 s).1 = processBatch s us) := by
  refine ⟨rfl, fun hconf => ?_⟩
  have h2 : pollRun mw tns script stop 2 0 s =
      pollRun mw tns script stop (1 + 1) 0 s := rfl
  rw [h2, pollRun_succ_of_not_stop mw tns script stop 1 0 s h0, hsc0,
    pollStep_error]
  rw [pollRun_succ_of_not_stop mw tns script stop 0 1 s h1, hsc1]
  simp [pollRun, pollStep, hconf]

/-- C5 witness: the conflict text itself as the first error. -/
theorem c5_conflict_cooldown_witness :
    ((fun _ : Nat => false) 0 = false) ∧
    ((fun _ : Nat => false) 1 = false) ∧
    ((fun j : Nat => if j = 0 then Except.error conflictText
        else Except.ok ([] : List Update)) 0 = Except.error conflictText) ∧
    ((fun j : Nat => if j = 0 then Except.error conflictText
        else Except.ok ([] : List Update)) 1 = Except.ok []) ∧
    ((pollStep 7 2000000000 (Except.error conflictText)
        (initPollState true true true)).sleeps =
      (if containsSubstr conflictText conflictText then [7] else []) ∧
    (containsSubstr conflictText conflictText = true →
      (pollRun 7 2000000000
          (fun j => if j = 0 then Except.error conflictText else Except.ok [])
          (fun _ => false) 2 0 (initPollState true true true)).2.sleeps = [7] ∧
      (pollRun 7 2000000000
          (fun j => if j = 0 then Except.error conflictText else Except.ok [])
          (fun _ => false) 2 0 (initPollState true true true)).2.fetches =
        [((initPollState true true true).latestUpdate + 1, timeoutSeconds 2000000000),
         ((initPollState true true true).latestUpdate + 1, timeoutSeconds 2000000000)] ∧
      (pollRun 7 2000000000
          (fun j => if j = 0 then Except.error conflictText else Except.ok [])
          (fun _ => false) 2 0 (initPollState true true true)).1 =
        processBatch (initPollState true true true) [])) :=
  ⟨rfl, rfl, rfl, rfl,
    c5_conflict_cooldown 7 2000000000
      (fun j => if j = 0 then Except.error conflictText else Except.ok [])
      (fun _ => false) (initPollState true true true) conflictText []
      rfl rfl rfl rfl⟩

/-- One update's contribution to the message sink. -/
lemma processUpdate_messages (s : PollState) (u : Update) (tr : List Message)
    (h : s.messages = some tr) :
    (processUpdate s u).messages =
      some (tr ++ match u.Payload with | some m => [m] | none => []) := by
  cases hp : u.Payload with
  | some m => simp [processUpdate, hp, h]
  | none =>
    cases hq : u.Query with
    | some q => cases hqs : s.queries <;> simp [processUpdate, hp, hq, hqs, h]
    | none =>
      cases hc : u.Callback with
      | some c => cases hcs : s.callbacks <;> simp [processUpdate, hp, hq, hc, hcs, h]
      | none => simp [processUpdate, hp, hq, hc, h]

/-- One update's contribution to the query sink. -/
lemma processUpdate_queries (s : PollState) (u : Update) (tr : List Query)
    (h : s.queries = some tr) :
    (processUpdate s u).queries =
      some (tr ++
        match u.Payload with
        | some _ => []
        | none =>
          match u.Query with
          | some q => [q]
          | none => []) := by
  cases hp : u.Payload with
  | some m => cases hms : s.messages <;> simp [processUpdate, hp, hms, h]
  | none =>
    cases hq : u.Query with
    | some q => simp [processUpdate, hp, hq, h]
    | none =>
      cases hc : u.Callback with
      | some c => cases hcs : s.callbacks <;> simp [processUpdate, hp, hq, hc, hcs, h]
      | none => simp [processUpdate, hp, hq, hc, h]

/-- One update's contribution to the callback sink. -/
lemma processUpdate_callbacks (s : PollState) (u : Update) (tr : List Callback)
    (h : s.callbacks = some tr) :
    (processUpdate s u).callbacks =
      some (tr ++
        match u.Payload with
        | some _ => []
        | none =>
          match u.Query with
          | some _ => []
          | none =>
            match u.Callback with
            | some c => [c]
            | none => []) := by
  cases hp : u.Payload with
  | some m => cases hms : s.messages <;> simp [processUpdate, hp, hms, h]
  | none =>
    cases hq : u.Query with
    | some q => cases hqs : s.queries <;> simp [processUpdate, hp, hq, hqs, h]
    | none =>
      cases hc : u.Callback with
      | some c => simp [processUpdate, hp, hq, hc, h]
      | none => simp [processUpdate, hp, hq, hc, h]

/-- A batch appends exactly the routed messages, in order, to a non-nil
message sink. -/
lemma processBatch_messages (us : List Update) (s : PollState)
    (tr : List Message) (h : s.messages = some tr) :
    (processBatch s us).messages = some (tr ++ routedMessages us) := by
  induction us generalizing s tr with
  | nil => simpa [processBatch, routedMessages] using h
  | cons u us ih =>
    cases hp : u.Payload with
    | none =>
      have hstep : (processUpdate s u).messages = some tr := by
        simpa [hp] using processUpdate_messages s u tr h
      simpa [processBatch, routedMessages, hp] using
        ih (processUpdate s u) tr hstep
    | some m =>
      have hstep : (processUpdate s u).messages = some (tr ++ [m]) := by
        simpa [hp] using processUpdate_messages s u tr h
      simpa [processBatch, routedMessages, hp, List.append_assoc] using
        ih (processUpdate s u) (tr ++ [m]) hstep

/-- A batch appends exactly the routed queries, in order, to a non-nil
query sink. -/
lemma processBatch_queries (us : List Update) (s : PollState)
    (tr : List Query) (h : s.queries = some tr) :
    (processBatch s us).queries = some (tr ++ routedQueries us) := by
  induction us generalizing s tr with
  | nil => simpa [processBatch, routedQueries] using h
  | cons u us ih =>
    cases hp : u.Payload with
    | some m =>
      have hstep : (processUpdate s u).queries = some tr := by
        simpa [hp] using processUpdate_queries s u tr h
      simpa [processBatch, routedQueries, hp] using
        ih (processUpdate s u) tr hstep
    | none =>
      cases hq : u.Query with
      | some q =>
        have hstep : (processUpdate s u).queries = some (tr ++ [q]) := by
          simpa [hp, hq] using processUpdate_queries s u tr h
        simpa [processBatch, routedQueries, hp, hq, List.append_assoc] using
          ih (processUpdate s u) (tr ++ [q]) hstep
      | none =>
        have hstep : (processUpdate s u).queries = some tr := by
          simpa [hp, hq] using processUpdate_queries s u tr h
        simpa [processBatch, routedQueries, hp, hq] using
          ih (processUpdate s u) tr hstep

/-- A batch appends exactly the routed callbacks, in order, to a non-nil
callback sink. -/
lemma processBatch_callbacks (us : List Update) (s : PollState)
    (tr : List Callback) (h : s.callbacks = some tr) :
    (processBatch s us).callbacks = some (tr ++ routedCallbacks us) := by
  induction us generalizing s tr with
  | nil => simpa [processBatch, routedCallbacks] using h
  | cons u us ih =>
    cases hp : u.Payload with
    | some m =>
      have hstep : (processUpdate s u).callbacks = some tr := by
        simpa [hp] using processUpdate_callbacks s u tr h
      simpa [processBatch, routedCallbacks, hp] using
        ih (processUpdate s u) tr hstep
    | none =>
      cases hq : u.Query with
      | some q =>
        have hstep : (processUpdate s u).callbacks = some tr := by
          simpa [hp, hq] using processUpdate_callbacks s u tr h
        simpa [processBatch, routedCallbacks, hp, hq] using
          ih (processUpdate s u) tr hstep
      | none =>
        cases hc : u.Callback with
        | some c =>
          have hstep : (processUpdate s u).callbacks = some (tr ++ [c]) := by
            simpa [hp, hq, hc] using processUpdate_callbacks s u tr h
          simpa [processBatch, routedCallbacks, hp, hq, hc, List.append_assoc]
            using ih (processUpdate s u) (tr ++ [c]) hstep
        | none =>
          have hstep : (processUpdate s u).callbacks = some tr := by
            simpa [hp, hq, hc] using processUpdate_callbacks s u tr h
          simpa [processBatch, routedCallbacks, hp, hq, hc] using
            ih (processUpdate s u) tr hstep

/-- C6: the classifier checks the variants in the fixed source order
`Payload` (Message), then `Query` (InlineQuery), then `Callback`
(CallbackPress) and routes to at most one sink: when `Payload` is populated
only the message sink can change (Message wins even if other variants are
also populated); when only later variants are populated the earlier sinks
are untouched; and an envelope with no populated variant changes no sink,
raises no error (the function is total), and still advances the cursor to
its identifier. -/
theorem c6_classifier_priority (s : PollState) (u : Update) :
    (u.Payload = none → u.Query = none → u.Callback = none →
      processUpdate s u = { s with latestUpdate := u.ID }) ∧
    (∀ m, u.Payload = some m →
      (processUpdate s u).queries = s.queries ∧
      (processUpdate s u).callbacks = s.callbacks) ∧
    (∀ q, u.Payload = none → u.Query = some q →
      (processUpdate s u).messages = s.messages ∧
      (processUpdate s u).callbacks = s.callbacks) ∧
    (∀ c, u.Payload = none → u.Query = none → u.Callback = some c →
      (processUpdate s u).messages = s.messages ∧
      (processUpdate s u).queries = s.queries) := by
  refine ⟨fun hp hq hc => ?_, fun m hp => ?_, fun q hp hq => ?_,
    fun c hp hq hc => ?_⟩
  · simp [processUpdate, hp, hq, hc]
  · cases hms : s.messages <;> simp [processUpdate, hp, hms]
  · cases hqs : s.queries <;> simp [processUpdate, hp, hq, hqs]
  · cases hcs : s.callbacks <;> simp [processUpdate, hp, hq, hc, hcs]

/-- An envelope with every variant populated, used to exhibit the Message
priority. -/
def c6Update : Update :=
  { ID := 9
    Payload := some { ID := 1, Photo := [] }
    Query := some { ID := "q" }
    Callback := some { ID := "c" } }

/-- C6 witness: with all three variants populated, only the message sink can
change. -/
theorem c6_classifier_priority_witness :
    c6Update.Payload = some { ID := 1, Photo := [] } ∧
    ((processUpdate (initPollState true true true) c6Update).queries =
        (initPollState true true true).queries ∧
      (processUpdate (initPollState true true true) c6Update).callbacks =
        (initPollState true true true).callbacks) :=
  ⟨rfl, (c6_classifier_priority (initPollState true true true) c6Update).2.1
    { ID := 1, Photo := [] } rfl⟩

/-- C7: a non-nil sink receives exactly the events the classifier routes to
it, appended in the relative order the transport returned them — within one
batch, and across two successive batches in fetch order. -/
theorem c7_sink_order (s : PollState) (us vs : List Update) :
    (∀ tr, s.messages = some tr →
      (processBatch s us).messages = some (tr ++ routedMessages us) ∧
      (processBatch (processBatch s us) vs).messages =
        some (tr ++ routedMessages us ++ routedMessages vs)) ∧
    (∀ tr, s.queries = some tr →
      (processBatch s us).queries = some (tr ++ routedQueries us) ∧
      (processBatch (processBatch s us) vs).queries =
        some (tr ++ routedQueries us ++ routedQueries vs)) ∧
    (∀ tr, s.callbacks = some tr →
      (processBatch s us).callbacks = some (tr ++ routedCallbacks us) ∧
      (processBatch (processBatch s us) vs).callbacks =
        some (tr ++ routedCallbacks us ++ routedCallbacks vs)) := by
  refine ⟨fun tr h => ?_, fun tr h => ?_, fun tr h => ?_⟩
  · have h1 := processBatch_messages us s tr h
    exact ⟨h1, by
      simpa [List.append_assoc] using
        processBatch_messages vs (processBatch s us) (tr ++ routedMessages us) h1⟩
  · have h1 := processBatch_queries us s tr h
    exact ⟨h1, by
      simpa [List.append_assoc] using
        processBatch_queries vs (processBatch s us) (tr ++ routedQueries us) h1⟩
  · have h1 := processBatch_callbacks us s tr h
    exact ⟨h1, by
      simpa [List.append_assoc] using
        processBatch_callbacks vs (processBatch s us) (tr ++ routedCallbacks us) h1⟩

/-- First batch for the C7 witness. -/
def c7Us : List Update :=
  [ { ID := 1, Payload := some { ID := 1, Photo := [] },
      Query := none, Callback := none },
    { ID := 2, Payload := none, Query := some { ID := "q2" },
      Callback := none } ]

/-- Second batch for the C7 witness. -/
def c7Vs : List Update :=
  [ { ID := 3, Payload := some { ID := 3, Photo := [] },
      Query := none, Callback := none } ]

/-- C7 witness. -/
theorem c7_sink_order_witness :
    ((initPollState true true true).messages = some []) ∧
    ((processBatch (initPollState true true true) c7Us).messages =
        some (([] : List Message) ++ routedMessages c7Us) ∧
      (processBatch (processBatch (initPollState true true true) c7Us) c7Vs).messages =
        some (([] : List Message) ++ routedMessages c7Us ++ routedMessages c7Vs)) :=
  ⟨rfl, (c7_sink_order (initPollState true true true) c7Us c7Vs).1 [] rfl⟩

/-- While the stop signal stays silent, the loop keeps running (it never
self-terminates) and performs exactly one fetch per iteration. -/
lemma pollRun_no_stop (mw tns : Int)
    (script : Nat → Except String (List Update)) (stop : Nat → Bool) :
    ∀ (n i : Nat) (s : PollState), (∀ j, j < n → stop (i + j) = false) →
      (pollRun mw tns script stop n i s).2.stopped = false ∧
      (pollRun mw tns script stop n i s).2.fetches.length = n := by
  intro n
  induction n with
  | zero => intro i s _; exact ⟨rfl, rfl⟩
  | succ n ih =>
    intro i s h
    have h0 : stop i = false := by simpa using h 0 (Nat.succ_pos n)
    rw [pollRun_succ_of_not_stop mw tns script stop n i s h0]
    have hrec := ih (i + 1) (pollStep mw tns (script i) s).state (fun j hj => by
      have hmem := h (j + 1) (by omega)
      have heq : i + (j + 1) = i + 1 + j := by omega
      rwa [heq] at hmem)
    exact ⟨by simpa using hrec.1, by simp [hrec.2]⟩

/-- If the stop signal first becomes ready at iteration `k`, the loop
observes it there, performs exactly `k` fetches (none afterwards) and
returns. -/
lemma pollRun_stopped_at (mw tns : Int)
    (script : Nat → Except String (List Update)) (stop : Nat → Bool) :
    ∀ (k n i : Nat) (s : PollState), k < n →
      (∀ j, j < k → stop (i + j) = false) → stop (i + k) = true →
      (pollRun mw tns script stop n i s).2.stopped = true ∧
      (pollRun mw tns script stop n i s).2.fetches.length = k := by
  intro k
  induction k with
  | zero =>
    intro n i s hk h hs
    obtain ⟨m, rfl⟩ : ∃ m, n = m + 1 := ⟨n - 1, by omega⟩
    have hi : stop i = true := by simpa using hs
    simp [pollRun, hi]
  | succ k ih =>
    intro n i s hk h hs
    obtain ⟨m, rfl⟩ : ∃ m, n = m + 1 := ⟨n - 1, by omega⟩
    have h0 : stop i = false := by simpa using h 0 (Nat.succ_pos k)
    rw [pollRun_succ_of_not_stop mw tns script stop m i s h0]
    have hrec := ih m (i + 1) (pollStep mw tns (script i) s).state (by omega)
      (fun j hj => by
        have hmem := h (j + 1) (by omega)
        have heq : i + (j + 1) = i + 1 + j := by omega
        rwa [heq] at hmem)
      (by
        have heq : i + (k + 1) = i + 1 + k := by omega
        rwa [heq] at hs)
    exact ⟨by simpa using hrec.1, by simp [hrec.2]⟩

/-- C8: the loop terminates exactly on the cancellation signal, which is
polled once per iteration before the fetch. If the signal stays silent for
`n` iterations the loop is still running after `n` iterations, having
fetched once per iteration, and the wait group has not fired; if the signal
first becomes ready at iteration `k`, the loop performs exactly the `k`
earlier fetches and no further one, returns, and the wait group fires. -/
theorem c8_cancellation (mw tns : Int)
    (script : Nat → Except String (List Update)) (stop : Nat → Bool)
    (n k : Nat) (s : PollState) :
    ((∀ i, i < n → stop i = false) →
      (listenRun mw tns script stop n s).2 = false ∧
      (listenRun mw tns script stop n s).1.2.stopped = false ∧
      (listenRun mw tns script stop n s).1.2.fetches.length = n) ∧
    (k < n → (∀ i, i < k → stop i = false) → stop k = true →
      (listenRun mw tns script stop n s).2 = true ∧
      (listenRun mw tns script stop n s).1.2.stopped = true ∧
      (listenRun mw tns script stop n s).1.2.fetches.length = k) := by
  constructor
  · intro h
    have hrun := pollRun_no_stop mw tns script stop n 0 s
      (fun j hj => by simpa using h j hj)
    exact ⟨hrun.1, hrun.1, hrun.2⟩
  · intro hk h hs
    have hrun := pollRun_stopped_at mw tns script stop k n 0 s hk
      (fun j hj => by simpa using h j hj) (by simpa using hs)
    exact ⟨hrun.1, hrun.1, hrun.2⟩

/-- C8 witness: a signal first ready at iteration 1 of a 3-fuel run. -/
theorem c8_cancellation_witness :
    (1 < 3 ∧ (∀ i, i < 1 → (fun j : Nat => decide (j = 1)) i = false) ∧
      (fun j : Nat => decide (j = 1)) 1 = true) ∧
    ((listenRun 5 1000000000 (fun _ => Except.ok [])
        (fun j => decide (j = 1)) 3 (initPollState true true true)).2 = true ∧
      (listenRun 5 1000000000 (fun _ => Except.ok [])
        (fun j => decide (j = 1)) 3 (initPollState true true true)).1.2.stopped = true ∧
      (listenRun 5 1000000000 (fun _ => Except.ok [])
        (fun j => decide (j = 1)) 3 (initPollState true true true)).1.2.fetches.length = 1) :=
  ⟨⟨by decide, by decide, by decide⟩,
    (c8_cancellation 5 1000000000 (fun _ => Except.ok [])
      (fun j => decide (j = 1)) 3 1 (initPollState true true true)).2
      (by decide) (by decide) (by decide)⟩

/-- C9: `NewBot` fails exactly when the one-time identity request fails, and
propagates its error unchanged; on success it returns the bot holding the
supplied token and the returned identity. -/
theorem c9_newBot (gm : String → Except String User) (token : String) :
    (∀ e, gm token = .error e → NewBot gm token = .error e) ∧
    (∀ e, NewBot gm token = .error e → gm token = .error e) ∧
    (∀ u, gm token = .ok u →
      NewBot gm token = .ok { Token := token, Identity := u }) := by
  refine ⟨fun e h => ?_, fun e h => ?_, fun u h => ?_⟩
  · simp [NewBot, h]
  · cases hg : gm token with
    | error e' =>
      have h2 : NewBot gm token = Except.error e' := by simp [NewBot, hg]
      rw [h2] at h
      injection h with h3
      rw [h3]
    | ok u =>
      have h2 : NewBot gm token = Except.ok { Token := token, Identity := u } := by
        simp [NewBot, hg]
      rw [h2] at h
      exact absurd h (by simp)
  · simp [NewBot, h]

/-- The identity oracle for the C9 witness. -/
def c9Oracle : String → Except String User :=
  fun _ => Except.ok { ID := 42, FirstName := "A", LastName := "B", Username := "ab" }

/-- C9 witness. -/
theorem c9_newBot_witness :
    (c9Oracle "token123" =
      Except.ok { ID := 42, FirstName := "A", LastName := "B", Username := "ab" }) ∧
    (NewBot c9Oracle "token123" =
      Except.ok { Token := "token123",
                  Identity := { ID := 42, FirstName := "A", LastName := "B", Username := "ab" } }) :=
  ⟨rfl, (c9_newBot c9Oracle "token123").2.2
    { ID := 42, FirstName := "A", LastName := "B", Username := "ab" } rfl⟩

/-- C10: on the `Ok` success path `SendPhoto` overwrites the photo's `File`
with the `File` of the last thumbnail of the response while writing the
saved local `filename` back; the `len-1` index panics (modelled `none`)
exactly when the response's thumbnail list is empty, so the success path is
total only under the precondition that an `Ok` response carries at least one
thumbnail. -/
theorem c10_sendPhoto_last_thumbnail (photo : Photo) (r : PhotoResponse)
    (hok : r.Ok = true) :
    (r.Result.Photo = [] → sendPhoto photo (.ok r) = none) ∧
    (∀ ts t, r.Result.Photo = ts ++ [t] →
      sendPhoto photo (.ok r) =
        some (.ok { photo with
          File := { t.File with filename := photo.File.filename } })) := by
  constructor
  · intro h
    simp [sendPhoto, hok, h]
  · intro ts t h
    simp [sendPhoto, hok, h]

/-- C10 witness: a two-thumbnail `Ok` response and an empty-list `Ok`
response. -/
theorem c10_sendPhoto_last_thumbnail_witness :
    (({ Ok := true
        Result := { ID := 0, Photo :=
          [ { File := { FileID := "t1", FileSize := 10, filename := "" },
              Width := 1, Height := 1 },
            { File := { FileID := "t2", FileSize := 20, filename := "" },
              Width := 2, Height := 2 } ] }
        Description := "" } : PhotoResponse).Ok = true ∧
      ({ Ok := true
         Result := { ID := 0, Photo :=
           [ { File := { FileID := "t1", FileSize := 10, filename := "" },
               Width := 1, Height := 1 },
             { File := { FileID := "t2", FileSize := 20, filename := "" },
               Width := 2, Height := 2 } ] }
         Description := "" } : PhotoResponse).Result.Photo =
        [ { File := { FileID := "t1", FileSize := 10, filename := "" },
            Width := 1, Height := 1 } ] ++
          [ { File := { FileID := "t2", FileSize := 20, filename := "" },
              Width := 2, Height := 2 } ]) ∧
    sendPhoto
        { File := { FileID := "", FileSize := 0, filename := "local.png" },
          Data := "", Caption := "cap" }
        (.ok { Ok := true
               Result := { ID := 0, Photo :=
                 [ { File := { FileID := "t1", FileSize := 10, filename := "" },
                     Width := 1, Height := 1 },
                   { File := { FileID := "t2", FileSize := 20, filename := "" },
                     Width := 2, Height := 2 } ] }
               Description := "" }) =
      some (.ok { File := { FileID := "t2", FileSize := 20, filename := "local.png" },
                  Data := "", Caption := "cap" }) := by
  refine ⟨⟨rfl, rfl⟩, ?_⟩
  have h := (c10_sendPhoto_last_thumbnail
    { File := { FileID := "", FileSize := 0, filename := "local.png" },
      Data := "", Caption := "cap" }
    { Ok := true
      Result := { ID := 0, Photo :=
        [ { File := { FileID := "t1", FileSize := 10, filename := "" },
            Width := 1, Height := 1 },
          { File := { FileID := "t2", FileSize := 20, filename := "" },
            Width := 2, Height := 2 } ] }
      Description := "" } rfl).2
    [ { File := { FileID := "t1", FileSize := 10, filename := "" },
        Width := 1, Height := 1 } ]
    { File := { FileID := "t2", FileSize := 20, filename := "" },
      Width := 2, Height := 2 } rfl
  exact h

end Telegram
